import Mathlib

/-!
Verification of the financial-news sentiment dashboard pipeline.

The script is a single render pass: read an API credential, fetch news
articles, score each title+description with a lexicon-based sentiment
analyzer, build one display record per article, and render a table,
charts and a CSV export.  A separate on-demand path analyzes one
user-supplied URL.

External collaborators (the VADER scorer, the HTTP client, the page
extractor) are modelled as parameters or as explicit inputs; the glue
logic of the script itself is embedded faithfully, line by line.
-/

namespace FinNews

/-- A raw article object from the news-search JSON response.  Every field
may be absent (`none` models a missing key or a JSON null). -/
structure RawArticle where
  title : Option String
  description : Option String
  url : Option String
  sourceName : Option String
  publishedAt : Option String
deriving DecidableEq, Repr

/-- One row of the `data` list built by the transformation loop
(lines 40-48 of the script).  Field names follow the dict keys. -/
structure Record where
  Title : Option String
  Description : Option String
  URL : Option String
  Sentiment : String
  Compound : ℚ
  Source : String
  PublishedAt : Option String
deriving DecidableEq, Repr

/-- The literal threshold `0.05` of the script, as an exact rational. -/
def threshold : ℚ := mkRat 5 100

/-- Line 39: the three-way label derived from a compound score in the
batch pipeline. -/
def sentiment_class (compound : ℚ) : String :=
  if compound > threshold then ("positive")
  else if compound < -threshold then ("negative")
  else ("neutral")

/-- Line 114: the three-way label derived from a compound score in the
single-URL path (textually the same conditional expression). -/
def sentiment_label (compound : ℚ) : String :=
  if compound > threshold then ("positive")
  else if compound < -threshold then ("negative")
  else ("neutral")

/-- Line 37: the text handed to the sentiment analyzer,
`(article.get("title") or "") + " " + (article.get("description") or "")`.
Python's `or ""` maps both a missing key and an empty string to `""`;
on `Option String` that is `getD ""` (an empty title is already `""`). -/
def content (a : RawArticle) : String :=
  a.title.getD "" ++ " " ++ a.description.getD ""

/-- Lines 37-48: one iteration of the transformation loop.  The analyzer
(VADER's `polarity_scores`, an external collaborator) is a parameter
mapping the input text to its compound score. -/
def buildRecord (analyzer : String → ℚ) (a : RawArticle) : Record :=
  let compound := analyzer (content a)
  { Title := a.title
    Description := a.description
    URL := a.url
    Sentiment := sentiment_class compound
    Compound := compound
    Source := a.sourceName.getD ""
    PublishedAt := a.publishedAt }

/-- Lines 35-48: the whole loop, appending one record per article in
order. -/
def data (analyzer : String → ℚ) (articles : List RawArticle) : List Record :=
  articles.map (buildRecord analyzer)

/-- Line 55: `make_clickable` builds the anchor-tag HTML
`<a href='{link}' target='_blank'>{text}</a>`. -/
def make_clickable (link text : String) : String :=
  "<a href=\x27" ++ link ++ "\x27 target=\x27_blank\x27>" ++ text ++ "</a>"

/-- Rendering a Python value inside an f-string: a present string renders
as itself, `None` renders as the text `None`. -/
def pyStr (v : Option String) : String :=
  match v with
  | some s => s
  | none => "None"

/-- Python truthiness of an optional string: `None` and `""` are falsy. -/
def truthy (v : Option String) : Bool :=
  match v with
  | some s => s ≠ ""
  | none => false

/-- Line 58: the title cell of the styled table,
`make_clickable(x["URL"], x["Title"] if x["Title"] else "View Article")`. -/
def displayedTitle (r : Record) : String :=
  make_clickable (pyStr r.URL) (if truthy r.Title then pyStr r.Title else ("View Article"))

/-! ### Timestamp parsing (line 89, `pd.to_datetime`)

`pd.to_datetime` (errors defaulting to raise) converts missing values
(`None`) to `NaT` and raises on a string it cannot parse as a date-time.
We model its parser on the ISO-8601 shape `YYYY-MM-DDTHH:MM:SSZ` that the
news service emits, with calendar-field range checks. -/

/-- A parsed date-time value. -/
structure DateTime where
  year : Nat
  month : Nat
  day : Nat
  hour : Nat
  minute : Nat
  second : Nat
deriving DecidableEq, Repr

/-- Two decimal digit characters as a number. -/
def d2 (a b : Char) : Nat :=
  (a.toNat - 48) * 10 + (b.toNat - 48)

/-- Parse an ISO-8601 `YYYY-MM-DDTHH:MM:SSZ` timestamp; `none` when the
string does not have that shape or a field is out of range. -/
def parseDateTime (s : String) : Option DateTime :=
  match s.toList with
  | [y1, y2, y3, y4, '-', m1, m2, '-', dd1, dd2, 'T',
     h1, h2, ':', n1, n2, ':', s1, s2, 'Z'] =>
    if ([y1, y2, y3, y4, m1, m2, dd1, dd2, h1, h2, n1, n2, s1, s2].all Char.isDigit) then
      let t : DateTime :=
        { year := d2 y1 y2 * 100 + d2 y3 y4
          month := d2 m1 m2
          day := d2 dd1 dd2
          hour := d2 h1 h2
          minute := d2 n1 n2
          second := d2 s1 s2 }
      if 1 ≤ t.month ∧ t.month ≤ 12 ∧ 1 ≤ t.day ∧ t.day ≤ 31 ∧
         t.hour ≤ 23 ∧ t.minute ≤ 59 ∧ t.second ≤ 59 then some t else none
    else none
  | _ => none

/-- `pd.to_datetime` on one cell of the `Published At` column: a missing
value becomes `NaT` (here `none`) without error; a present string either
parses or raises. -/
def to_datetime_cell (v : Option String) : Except String (Option DateTime) :=
  match v with
  | none => Except.ok none
  | some s =>
    match parseDateTime s with
    | some t => Except.ok (some t)
    | none => Except.error ("ParserError: Unknown datetime string format: " ++ s)

/-- A record after line 89: the `Published At` column now holds a parsed
date-time value (or `NaT`); every other column is unchanged. -/
structure RecordP where
  Title : Option String
  Description : Option String
  URL : Option String
  Sentiment : String
  Compound : ℚ
  Source : String
  PublishedAt : Option DateTime
deriving DecidableEq, Repr

/-- Line 89, `df["Published At"] = pd.to_datetime(df["Published At"])`:
convert the whole column, surfacing the first parse error uncaught. -/
def to_datetime_column : List Record → Except String (List RecordP)
  | [] => Except.ok []
  | r :: rs =>
    match to_datetime_cell r.PublishedAt with
    | Except.error e => Except.error e
    | Except.ok t =>
      match to_datetime_column rs with
      | Except.error e => Except.error e
      | Except.ok rest =>
        Except.ok (({ Title := r.Title
                      Description := r.Description
                      URL := r.URL
                      Sentiment := r.Sentiment
                      Compound := r.Compound
                      Source := r.Source
                      PublishedAt := t } : RecordP) :: rest)

/-- Integer key of a date-time, monotone in the lexicographic field
order; used only to compare timestamps. -/
def DateTime.key (t : DateTime) : Nat :=
  ((((t.year * 100 + t.month) * 100 + t.day) * 100 + t.hour) * 100 + t.minute) * 100 + t.second

/-- The sort comparator of `sort_values("Published At")`: ascending by
timestamp, missing values (`NaT`) placed last (pandas default
`na_position="last"`). -/
def publishedLe (a b : Option DateTime) : Bool :=
  match a, b with
  | none, none => true
  | none, some _ => false
  | some _, none => true
  | some x, some y => x.key ≤ y.key

/-- Line 90, `df_sorted = df.sort_values("Published At")`: a sorted copy
of the record list; the input list itself is untouched. -/
def sortByPublished (rs : List RecordP) : List RecordP :=
  rs.mergeSort (fun a b => publishedLe a.PublishedAt b.PublishedAt)

/-! ### The render pass (the whole script, top to bottom)

`pd.DataFrame(data)` derives its column set from the row dicts: the
seven keys when `data` is non-empty, and no columns at all for an empty
list.  Accessing a column that is not present raises.  In particular,
with zero articles the styled-title step over the column-less frame
fails (the `apply` lambda cannot read `x["URL"]`, and assigning its
empty, column-less result raises a `ValueError`), so the views below are
never reached. -/

/-- The column names of the `data` dicts, in insertion order. -/
def recordColumns : List String :=
  [("Title"), ("Description"), ("URL"), ("Sentiment"), ("Compound"),
   ("Source"), ("Published At")]

/-- The columns of `pd.DataFrame(data)`: derived from the rows, hence
empty when there are no rows. -/
def dfColumns (rows : List Record) : List String :=
  if rows = [] then [] else recordColumns

/-- One displayed row of the styled table (line 61): the clickable
title, sentiment, compound, source and published-at cells. -/
def styledRow (r : Record) : String × String × ℚ × String × Option String :=
  (displayedTitle r, r.Sentiment, r.Compound, r.Source, r.PublishedAt)

/-- Lines 57-61: build the styled table.  The lambda of line 58 reads
`x["URL"]`; over a frame with no columns that access fails, and the
surrounding `apply`/column-assignment raises, so an empty record list
yields an error rather than an empty table. -/
def styledTable (rows : List Record) :
    Except String (List (String × String × ℚ × String × Option String)) :=
  if (dfColumns rows).contains ("URL") then Except.ok (rows.map styledRow)
  else Except.error ("ValueError: empty DataFrame has no URL column")

/-- Where a render pass stopped, when it did not finish. -/
inductive StopReason where
  | missingCredential
  | fetchError
  | renderError (msg : String)
deriving DecidableEq, Repr

/-- Everything one render pass of the script produces on screen. -/
structure RenderResult where
  warning : Option String
  errorMsg : Option String
  fetchAttempted : Bool
  records : List Record
  tableRendered : Bool
  pieRendered : Bool
  barRendered : Bool
  lineRendered : Bool
  csvOffered : Bool
  stopped : Option StopReason
deriving DecidableEq, Repr

/-- The HTTP response of the news fetch: a status code and, on a JSON
body, the optional `articles` list (`none` when the key is absent). -/
structure Response where
  status_code : Nat
  articles : Option (List RawArticle)
deriving DecidableEq, Repr

/-- The batch pipeline, lines 11-101 of the script: credential check
(lines 13-15, `st.stop()` before any network call), fetch status check
(lines 28-30, `st.stop()`), transformation loop (lines 35-48), styled
table (lines 57-61), pie and bar charts (lines 63-85), timestamp parse
and time-series chart (lines 88-98), CSV export (line 101).  An uncaught
exception while rendering stops the pass at that point. -/
def renderPass (api_key : String) (resp : Response) (analyzer : String → ℚ) :
    RenderResult :=
  if api_key = "" then
    { warning := some ("Please enter your NewsAPI key in the sidebar.")
      errorMsg := none
      fetchAttempted := false
      records := []
      tableRendered := false
      pieRendered := false
      barRendered := false
      lineRendered := false
      csvOffered := false
      stopped := some StopReason.missingCredential }
  else if resp.status_code ≠ 200 then
    { warning := none
      errorMsg := some ("Failed to fetch articles. Check your API key or try again later.")
      fetchAttempted := true
      records := []
      tableRendered := false
      pieRendered := false
      barRendered := false
      lineRendered := false
      csvOffered := false
      stopped := some StopReason.fetchError }
  else
    let articles := resp.articles.getD []
    let records := data analyzer articles
    match styledTable records with
    | Except.error e =>
      { warning := none
        errorMsg := none
        fetchAttempted := true
        records := records
        tableRendered := false
        pieRendered := false
        barRendered := false
        lineRendered := false
        csvOffered := false
        stopped := some (StopReason.renderError e) }
    | Except.ok _ =>
      match to_datetime_column records with
      | Except.error e =>
        { warning := none
          errorMsg := none
          fetchAttempted := true
          records := records
          tableRendered := true
          pieRendered := true
          barRendered := true
          lineRendered := false
          csvOffered := false
          stopped := some (StopReason.renderError e) }
      | Except.ok _ =>
        { warning := none
          errorMsg := none
          fetchAttempted := true
          records := records
          tableRendered := true
          pieRendered := true
          barRendered := true
          lineRendered := true
          csvOffered := true
          stopped := none }

/-! ### The single-URL path (lines 103-121) -/

/-- What the page-extraction collaborator (`newspaper.Article`) yields on
success: the extracted title and full body text. -/
structure Extracted where
  title : String
  text : String
deriving DecidableEq, Repr

/-- What the single-URL section shows. -/
inductive SingleResult where
  | shown (title : String) (label : String) (compound : ℚ) (fullText : String)
  | failed (msg : String)
deriving DecidableEq, Repr

/-- Lines 106-121: the try/except around download, parse and scoring.
The extraction outcome (success value, or the error's description) is
the input; on error the message of line 121 is shown inline. -/
def analyzeCustomURL (analyzer : String → ℚ)
    (extraction : Except String Extracted) : SingleResult :=
  match extraction with
  | Except.error e =>
    SingleResult.failed ("Failed to analyze the article. Reason: " ++ e)
  | Except.ok ex =>
    let article_text := ex.title ++ " " ++ ex.text
    let compound := analyzer article_text
    SingleResult.shown ex.title (sentiment_label compound) compound ex.text

/-- The whole page: the batch dashboard, then — only when the batch pass
did not stop the script — the optional single-URL analysis below it. -/
def fullPage (api_key : String) (resp : Response) (analyzer : String → ℚ)
    (custom : Option (Except String Extracted)) :
    RenderResult × Option SingleResult :=
  let batch := renderPass api_key resp analyzer
  if batch.stopped.isSome then (batch, none)
  else (batch, custom.map (analyzeCustomURL analyzer))

/-! ### Concrete fixtures used by witnesses and counterexamples -/

/-- An analyzer that scores every text 0 (any fixed collaborator works
for the structural claims). -/
def zeroAnalyzer : String → ℚ := fun _ => 0

/-- A raw article with every field present. -/
def sampleArticleA : RawArticle :=
  { title := some ("Stocks rally")
    description := some ("Markets up")
    url := some ("https://a.example")
    sourceName := some ("Aggregator")
    publishedAt := some ("2024-01-02T03:04:05Z") }

/-- A raw article whose title and source are absent. -/
def sampleArticleB : RawArticle :=
  { title := none
    description := some ("Bitcoin falls")
    url := some ("https://b.example")
    sourceName := none
    publishedAt := some ("2023-12-31T23:59:59Z") }

/-- A raw article with every field absent. -/
def emptyArticle : RawArticle :=
  { title := none, description := none, url := none,
    sourceName := none, publishedAt := none }

/-- The records `data zeroAnalyzer [sampleArticleA, sampleArticleB]`
after the line-89 timestamp parse, written out. -/
def sampleParsed : List RecordP :=
  [{ Title := some ("Stocks rally")
     Description := some ("Markets up")
     URL := some ("https://a.example")
     Sentiment := ("neutral")
     Compound := 0
     Source := ("Aggregator")
     PublishedAt := some { year := 2024, month := 1, day := 2,
                           hour := 3, minute := 4, second := 5 } },
   { Title := none
     Description := some ("Bitcoin falls")
     URL := some ("https://b.example")
     Sentiment := ("neutral")
     Compound := 0
     Source := ("")
     PublishedAt := some { year := 2023, month := 12, day := 31,
                           hour := 23, minute := 59, second := 59 } }]

/-! ### Helper lemmas -/

/-- A successful line-89 conversion keeps every compound score in place:
the parsed column is the only one that changes. -/
theorem to_datetime_column_map_compound (rs : List Record) (rs' : List RecordP)
    (h : to_datetime_column rs = Except.ok rs') :
    rs'.map RecordP.Compound = rs.map Record.Compound := by
  induction rs generalizing rs' with
  | nil =>
    simp only [to_datetime_column, Except.ok.injEq] at h
    subst h
    rfl
  | cons r rs ih =>
    unfold to_datetime_column at h
    cases hc : to_datetime_cell r.PublishedAt with
    | error e => rw [hc] at h; exact absurd h (by simp)
    | ok t =>
      rw [hc] at h
      cases hrest : to_datetime_column rs with
      | error e => rw [hrest] at h; exact absurd h (by simp)
      | ok rest =>
        rw [hrest] at h
        simp only [Except.ok.injEq] at h
        subst h
        simp [ih rest hrest]

/-! ### The claims -/

/-- C1: for every compound score, the derived label is positive iff the
score exceeds 0.05, negative iff it is below -0.05, and neutral exactly
on the closed interval between them, so both boundary values are
neutral; the single-URL path's labelling agrees with the batch
pipeline's. -/
theorem label_threshold_rule (c : ℚ) :
    (sentiment_class c = "positive" ↔ threshold < c) ∧
    (sentiment_class c = "negative" ↔ c < -threshold) ∧
    (sentiment_class c = "neutral" ↔ -threshold ≤ c ∧ c ≤ threshold) ∧
    sentiment_label c = sentiment_class c ∧
    sentiment_class threshold = "neutral" ∧
    sentiment_class (-threshold) = "neutral" := by
  have ht : -threshold < threshold := by decide
  refine ⟨?_, ?_, ?_, rfl, by decide, by decide⟩ <;>
    · unfold sentiment_class
      split_ifs with h1 h2 <;> simp_all <;> linarith

/-- C2: when the raw title is absent or empty, the styled table's title
cell is the clickable fallback `View Article`, while the record's
compound score comes from the analyzer applied to the original
title-plus-description text, which is just a space followed by the
description — not from the fallback text. -/
theorem fallback_title_rule (an : String → ℚ) (a : RawArticle)
    (h : a.title = none ∨ a.title = some "") :
    displayedTitle (buildRecord an a) = make_clickable (pyStr a.url) ("View Article") ∧
    (buildRecord an a).Compound = an (content a) ∧
    content a = " " ++ a.description.getD "" := by
  rcases h with h | h <;>
    simp [displayedTitle, buildRecord, content, truthy, h]

/-- Witness for C2 at a concrete article with an absent title. -/
theorem fallback_title_rule_witness :
    displayedTitle (buildRecord zeroAnalyzer sampleArticleB) =
      make_clickable (pyStr sampleArticleB.url) ("View Article") ∧
    (buildRecord zeroAnalyzer sampleArticleB).Compound =
      zeroAnalyzer (content sampleArticleB) ∧
    content sampleArticleB = " " ++ sampleArticleB.description.getD "" :=
  fallback_title_rule zeroAnalyzer sampleArticleB (Or.inl rfl)

/-- C3: the transformation loop yields exactly one record per raw
article, whatever the articles contain. -/
theorem record_count_rule (an : String → ℚ) (articles : List RawArticle) :
    (data an articles).length = articles.length :=
  List.length_map articles (buildRecord an)

/-- C4: when the line-89 timestamp parse succeeds, the time-series
copy, re-sorted ascending by published timestamp, carries exactly the
multiset of compound scores of the canonical sequence, and the
canonical sequence's scores are still in their original order. -/
theorem sorted_scores_rule (an : String → ℚ) (articles : List RawArticle)
    (rs' : List RecordP)
    (h : to_datetime_column (data an articles) = Except.ok rs') :
    ((sortByPublished rs').map RecordP.Compound : Multiset ℚ) =
      ((data an articles).map Record.Compound : Multiset ℚ) ∧
    rs'.map RecordP.Compound = (data an articles).map Record.Compound := by
  have hmap := to_datetime_column_map_compound (data an articles) rs' h
  refine ⟨?_, hmap⟩
  have hperm : (sortByPublished rs').Perm rs' := List.mergeSort_perm rs' _
  have := (hperm.map RecordP.Compound)
  rw [← hmap]
  exact Multiset.coe_eq_coe.mpr this

/-- Witness for C4 at two concrete articles with parseable timestamps. -/
theorem sorted_scores_rule_witness :
    ((sortByPublished sampleParsed).map RecordP.Compound : Multiset ℚ) =
      ((data zeroAnalyzer [sampleArticleA, sampleArticleB]).map Record.Compound : Multiset ℚ) ∧
    sampleParsed.map RecordP.Compound =
      (data zeroAnalyzer [sampleArticleA, sampleArticleB]).map Record.Compound :=
  sorted_scores_rule zeroAnalyzer [sampleArticleA, sampleArticleB] sampleParsed (by rfl)

/-- C5: a non-200 fetch response halts the render pass with the fetch
error: the error message is shown, no records are produced, and no
table, chart or CSV export is rendered below it. -/
theorem fetch_error_rule (k : String) (resp : Response) (an : String → ℚ)
    (hk : k ≠ "") (hs : resp.status_code ≠ 200) :
    renderPass k resp an =
      { warning := none
        errorMsg := some ("Failed to fetch articles. Check your API key or try again later.")
        fetchAttempted := true
        records := []
        tableRendered := false
        pieRendered := false
        barRendered := false
        lineRendered := false
        csvOffered := false
        stopped := some StopReason.fetchError } := by
  unfold renderPass
  rw [if_neg hk, if_pos hs]

/-- Witness for C5 at a concrete key and an HTTP 401 response. -/
theorem fetch_error_rule_witness :
    renderPass ("k") { status_code := 401, articles := none } zeroAnalyzer =
      { warning := none
        errorMsg := some ("Failed to fetch articles. Check your API key or try again later.")
        fetchAttempted := true
        records := []
        tableRendered := false
        pieRendered := false
        barRendered := false
        lineRendered := false
        csvOffered := false
        stopped := some StopReason.fetchError } :=
  fetch_error_rule ("k") { status_code := 401, articles := none } zeroAnalyzer
    (by decide) (by decide)

/-- C6: an empty API credential halts the render pass with the
missing-credential warning before the fetch is attempted, and nothing
below the warning is rendered. -/
theorem missing_credential_rule (resp : Response) (an : String → ℚ) :
    renderPass ("") resp an =
      { warning := some ("Please enter your NewsAPI key in the sidebar.")
        errorMsg := none
        fetchAttempted := false
        records := []
        tableRendered := false
        pieRendered := false
        barRendered := false
        lineRendered := false
        csvOffered := false
        stopped := some StopReason.missingCredential } := by
  unfold renderPass
  rw [if_pos rfl]

/-- C7 counterexample: building the record of an article with every
field absent leaves title, description, url and published timestamp as
null values (`none`), not as empty text; only the source name is
substituted with empty text. -/
theorem record_null_fields_cex :
    (buildRecord zeroAnalyzer emptyArticle).Title = none ∧
    (buildRecord zeroAnalyzer emptyArticle).Title ≠ some ("") ∧
    (buildRecord zeroAnalyzer emptyArticle).Description = none ∧
    (buildRecord zeroAnalyzer emptyArticle).URL = none ∧
    (buildRecord zeroAnalyzer emptyArticle).PublishedAt = none ∧
    (buildRecord zeroAnalyzer emptyArticle).Source = "" := by
  refine ⟨rfl, by decide, rfl, rfl, rfl, rfl⟩

/-- C7 as amended: building a record never fails; the missing source
name is substituted with empty text, missing title and description are
substituted with empty text only inside the sentiment-scoring input,
and the title, description, url and published-timestamp fields are
stored exactly as they came, so an absent one stays a null value. -/
theorem record_field_defaults_rule (an : String → ℚ) (a : RawArticle) :
    (buildRecord an a).Title = a.title ∧
    (buildRecord an a).Description = a.description ∧
    (buildRecord an a).URL = a.url ∧
    (buildRecord an a).PublishedAt = a.publishedAt ∧
    (buildRecord an a).Source = a.sourceName.getD "" ∧
    (buildRecord an a).Compound = an (a.title.getD "" ++ " " ++ a.description.getD "") :=
  ⟨rfl, rfl, rfl, rfl, rfl, rfl⟩

/-- C8 counterexample: a record whose published timestamp is absent
does not make the line-89 parse fail — the column conversion succeeds
and substitutes the null datetime `NaT`. -/
theorem absent_timestamp_cex :
    to_datetime_column [buildRecord zeroAnalyzer emptyArticle] =
      Except.ok [{ Title := none
                   Description := none
                   URL := none
                   Sentiment := ("neutral")
                   Compound := 0
                   Source := ("")
                   PublishedAt := none }] := by
  rfl

/-- C8 as amended: a present but malformed published timestamp makes
the parse fail with a ParseError that is surfaced uncaught to the
caller, with no fallback substituted; an absent timestamp does not
fail and becomes the null datetime `NaT`. -/
theorem malformed_timestamp_rule (s : String) (r : Record) (rs : List Record)
    (hm : parseDateTime s = none) (hr : r.PublishedAt = some s) :
    to_datetime_column (r :: rs) =
      Except.error ("ParserError: Unknown datetime string format: " ++ s) ∧
    to_datetime_cell none = Except.ok none := by
  refine ⟨?_, rfl⟩
  unfold to_datetime_column
  rw [hr]
  simp [to_datetime_cell, hm]

/-- Witness for C8's amended claim at a concrete malformed timestamp. -/
theorem malformed_timestamp_rule_witness :
    to_datetime_column [buildRecord zeroAnalyzer
        { title := none, description := none, url := none,
          sourceName := none, publishedAt := some ("not-a-date") }] =
      Except.error ("ParserError: Unknown datetime string format: " ++ "not-a-date") ∧
    to_datetime_cell none = Except.ok none :=
  malformed_timestamp_rule ("not-a-date")
    (buildRecord zeroAnalyzer
      { title := none, description := none, url := none,
        sourceName := none, publishedAt := some ("not-a-date") })
    [] (by rfl) (by rfl)

/-- C9: a failing extraction in the single-URL path is caught and shown
as an inline message carrying the underlying error's description, and
the batch dashboard above is the same whatever the single-URL outcome;
a successful extraction exposes the extracted title, the derived label,
the compound score and the full body text. -/
theorem single_url_rule (an : String → ℚ) (e : String) (ex : Extracted)
    (k : String) (resp : Response) (custom : Option (Except String Extracted)) :
    analyzeCustomURL an (Except.error e) =
      SingleResult.failed ("Failed to analyze the article. Reason: " ++ e) ∧
    analyzeCustomURL an (Except.ok ex) =
      SingleResult.shown ex.title
        (sentiment_label (an (ex.title ++ " " ++ ex.text)))
        (an (ex.title ++ " " ++ ex.text)) ex.text ∧
    (fullPage k resp an custom).1 = renderPass k resp an := by
  refine ⟨rfl, rfl, ?_⟩
  unfold fullPage
  by_cases h : (renderPass k resp an).stopped.isSome <;> simp [h]

/-- C10 counterexample: an HTTP 200 response whose body has no
`articles` list yields zero records, but the render pass then stops
with an error instead of rendering the views over the empty data. -/
theorem no_articles_key_cex :
    renderPass ("k") { status_code := 200, articles := none } zeroAnalyzer =
      { warning := none
        errorMsg := none
        fetchAttempted := true
        records := []
        tableRendered := false
        pieRendered := false
        barRendered := false
        lineRendered := false
        csvOffered := false
        stopped := some (StopReason.renderError
          ("ValueError: empty DataFrame has no URL column")) } := by
  rfl

/-- C10 as amended: on an HTTP 200 response without an `articles` list
the pipeline proceeds past the fetch with an empty article sequence and
produces zero ArticleRecords, but the views are not rendered: the
DataFrame built from the empty list has no columns, so the
clickable-title table step raises and the render pass stops there. -/
theorem no_articles_key_rule (k : String) (resp : Response) (an : String → ℚ)
    (hk : k ≠ "") (hs : resp.status_code = 200) (ha : resp.articles = none) :
    renderPass k resp an =
      { warning := none
        errorMsg := none
        fetchAttempted := true
        records := []
        tableRendered := false
        pieRendered := false
        barRendered := false
        lineRendered := false
        csvOffered := false
        stopped := some (StopReason.renderError
          ("ValueError: empty DataFrame has no URL column")) } := by
  unfold renderPass
  rw [if_neg hk, if_neg (by simp [hs]), ha]
  rfl

/-- Witness for C10's amended claim at a concrete 200 response with no
`articles` key. -/
theorem no_articles_key_rule_witness :
    renderPass ("k") { status_code := 200, articles := none } zeroAnalyzer =
      { warning := none
        errorMsg := none
        fetchAttempted := true
        records := []
        tableRendered := false
        pieRendered := false
        barRendered := false
        lineRendered := false
        csvOffered := false
        stopped := some (StopReason.renderError
          ("ValueError: empty DataFrame has no URL column")) } :=
  no_articles_key_rule ("k") { status_code := 200, articles := none } zeroAnalyzer
    (by decide) rfl rfl

end FinNews
